import Mathlib

/-!
Verification of the FocusLens client-side synchronization core against its
design document.  The definitions below are a shallow embedding of the
TypeScript sources:

* `normalizeInvokeError` and friends embed `src/utils/tauriError.ts`;
* the `ExportStore` functions embed the export store (`useExportStore`):
  `setProgress`, the body of one poll-loop tick of `pollExportStatus`, and
  the success / failure continuations of `startExport` and `retryExport`;
* the `RecordingStore` functions embed the recording store
  (`useRecordingStore`): `syncFromEvent`, `startRecording`,
  `pauseRecording`, `resumeRecording`, `stopRecording`;
* the `ProjectStore` functions embed the project store (`useProjectStore`):
  `loadProject` (split at its await point), the queued bodies of
  `updateTimeline` / `updateCameraMotion`, and the promise-chain
  semantics of the shared write queue.

Asynchronous control flow is embedded by splitting each `async` function at
its suspension points: each resumption becomes a pure state-transformer, and
interleavings are lists of such resumption events.
-/

namespace FocusLens

/-! ## Shared error model (src/utils/tauriError.ts, src/types/project.ts) -/

/-- `AppError` from the shared type declarations: `{code, message, suggestion?}`. -/
structure AppError where
  code : String
  message : String
  suggestion : Option String
deriving DecidableEq, Repr

/-- A JavaScript value as far as `normalizeInvokeError` can observe it:
a string, an `Error` instance (carrying its `message`), a plain object
record, or one of the primitive shapes that fail both the `typeof ===
"string"` and the `typeof === "object" && value !== null` tests. -/
inductive JSValue where
  | jstr (s : String)
  | jerror (message : String)
  | jrec (fields : List (String × JSValue))
  | jnum (n : Int)
  | jbool (b : Bool)
  | jnull
  | jundefined
deriving Repr

/-- JavaScript property read on an object literal, first binding wins
 (fields are assumed distinct, as produced by the backend payloads). -/
def lookupField : List (String × JSValue) → String → Option JSValue
  | [], _ => none
  | (k, v) :: rest, key => if k = key then some v else lookupField rest key

/-- `asRecord`: a value usable as a record is a non-null object.  An `Error`
instance is an object exposing its `message` property. -/
def asRecord : JSValue → Option (List (String × JSValue))
  | .jrec fields => some fields
  | .jerror m => some [("message", .jstr m)]
  | _ => none

/-- An executable model of JavaScript `String.prototype.trim`: drops
whitespace from both ends. -/
def jsTrim (s : String) : String :=
  ⟨((s.data.dropWhile Char.isWhitespace).reverse.dropWhile
      Char.isWhitespace).reverse⟩

/-- `parseFromRecord` from src/utils/tauriError.ts: extracts
`{code, message, suggestion}` from a record, succeeding only when the
record's `message` is a string that is non-blank after trimming.
(The `fallbackMessage` parameter is accepted but unused, as in the source.) -/
def parseFromRecord (value : List (String × JSValue))
    (fallbackCode _fallbackMessage : String) : Option AppError :=
  let code := match lookupField value "code" with
    | some (.jstr c) => c
    | _ => fallbackCode
  let message : Option String := match lookupField value "message" with
    | some (.jstr m) => if (jsTrim m).length > 0 then some m else none
    | _ => none
  let suggestion : Option String := match lookupField value "suggestion" with
    | some (.jstr s) => some s
    | _ => none
  match message with
  | some m => some ⟨code, m, suggestion⟩
  | none => none

/-- The record-shaped tail of `normalizeInvokeError`: try the value as a
record, then its `error` field as a nested record, else fall back. -/
def normalizeFromRecord (error : JSValue)
    (fallbackCode fallbackMessage : String) : AppError :=
  match asRecord error with
  | some direct =>
    match parseFromRecord direct fallbackCode fallbackMessage with
    | some parsed => parsed
    | none =>
      match (lookupField direct "error").bind asRecord with
      | some nested =>
        match parseFromRecord nested fallbackCode fallbackMessage with
        | some nestedParsed => nestedParsed
        | none => ⟨fallbackCode, fallbackMessage, none⟩
      | none => ⟨fallbackCode, fallbackMessage, none⟩
  | none => ⟨fallbackCode, fallbackMessage, none⟩

/-- `normalizeInvokeError` from src/utils/tauriError.ts, with the source's
check order: non-blank plain string, then `Error` instance with non-blank
message, then record / nested record, then the caller-supplied fallback. -/
def normalizeInvokeError (error : JSValue)
    (fallbackCode fallbackMessage : String) : AppError :=
  match error with
  | .jstr s =>
    if (jsTrim s).length > 0 then ⟨fallbackCode, s, none⟩
    else normalizeFromRecord error fallbackCode fallbackMessage
  | .jerror m =>
    if (jsTrim m).length > 0 then ⟨fallbackCode, m, none⟩
    else normalizeFromRecord error fallbackCode fallbackMessage
  | _ => normalizeFromRecord error fallbackCode fallbackMessage

/-! ## Export store (the `useExportStore` module) -/

/-- `ExportStatus` from src/types/project.ts. -/
inductive ExportStatus where
  | queued
  | running
  | fallback
  | success
  | failed
deriving DecidableEq, Repr

/-- A status is terminal when the poll loop stops on it. -/
def ExportStatus.isTerminal : ExportStatus → Bool
  | .success => true
  | .failed => true
  | _ => false

/-- `detailByStatus` from the export store. -/
def detailByStatus : ExportStatus → String
  | .queued => "导出任务排队中"
  | .running => "导出处理中"
  | .fallback => "硬件编码不可用，已回退软件编码"
  | .success => "导出完成"
  | .failed => "导出失败"

/-- `progressByStatus` from the export store: queued to 0, running to 45,
fallback to 62, terminal statuses to 100. -/
def progressByStatus : ExportStatus → Nat
  | .queued => 0
  | .running => 45
  | .fallback => 62
  | .success => 100
  | .failed => 100

/-- The observable slice of the export store state. -/
structure ExportState where
  taskId : Option String
  status : ExportStatus
  progress : Nat
  detail : String
  error : Option String
deriving DecidableEq, Repr

/-- The export store's initial state. -/
def exportInit : ExportState :=
  { taskId := none, status := .queued, progress := 0
    detail := "等待导出", error := none }

/-- `Math.max(0, Math.min(100, progress))` on an integer progress value. -/
def clampProgress (p : Int) : Nat := (max 0 (min 100 p)).toNat

/-- `setProgress` from the export store: the push-notification handler.
Updates with a task id different from a non-null current id are dropped;
otherwise the store is overwritten and the current id is kept when present
(`currentTaskId ?? taskId`). -/
def setProgress (taskId : String) (status : ExportStatus) (progress : Int)
    (detail : String) (s : ExportState) : ExportState :=
  match s.taskId with
  | some currentTaskId =>
    if taskId ≠ currentTaskId then s
    else
      { taskId := some currentTaskId, status := status
        progress := clampProgress progress, detail := detail
        error := if status = .failed then some detail else none }
  | none =>
    { taskId := some taskId, status := status
      progress := clampProgress progress, detail := detail
      error := if status = .failed then some detail else none }

/-- `ExportTaskStatusSnapshot`: the reply of `get_export_task_status`. -/
structure ExportTaskStatusSnapshot where
  taskId : String
  projectId : String
  status : ExportStatus
  retries : Nat
  lastError : Option AppError
deriving DecidableEq, Repr

/-- The `set` call of one admitted poll tick in `pollExportStatus`:
progress is the status-derived value, floored by the current progress for
running / fallback; detail keeps the current text on an unchanged status,
takes the backend error message on failure; error is set only on failure. -/
def applyPollSnapshot (snapshot : ExportTaskStatusSnapshot)
    (current : ExportState) : ExportState :=
  let statusProgress := progressByStatus snapshot.status
  let progress :=
    if snapshot.status = .running ∨ snapshot.status = .fallback then
      max current.progress statusProgress
    else statusProgress
  let detail :=
    if snapshot.status = .failed then
      (snapshot.lastError.map AppError.message).getD (detailByStatus snapshot.status)
    else if current.status = snapshot.status ∧ (jsTrim current.detail).length > 0 then
      current.detail
    else detailByStatus snapshot.status
  { current with
    status := snapshot.status
    progress := progress
    detail := detail
    error :=
      if snapshot.status = .failed then
        some ((snapshot.lastError.map AppError.message).getD "导出失败")
      else none }

/-- The reconciliation engine state: the store plus the module-level
`exportPollSerial` counter. -/
structure EngineState where
  store : ExportState
  pollSerial : Nat
deriving DecidableEq, Repr

/-- The engine's initial state. -/
def engineInit : EngineState := { store := exportInit, pollSerial := 0 }

/-- One tick of the poll loop started for `loopTaskId` at generation
`loopSerial`: the snapshot is applied only when the store still tracks
`loopTaskId` and the loop is still the latest generation; otherwise the
tick is a no-op (the loop exits). -/
def pollTickStep (loopTaskId : String) (loopSerial : Nat)
    (snapshot : ExportTaskStatusSnapshot) (e : EngineState) : EngineState :=
  if e.store.taskId = some loopTaskId ∧ loopSerial = e.pollSerial then
    { e with store := applyPollSnapshot snapshot e.store }
  else e

/-- The success continuation of `startExport`: adopt the returned task id,
reset the store, and start a fresh poll loop (`pollExportStatus` increments
`exportPollSerial` synchronously on entry).  The returned pair is the
identity and generation the new loop is scoped to. -/
def startExportOk (taskId : String) (e : EngineState) :
    EngineState × (String × Nat) :=
  ({ store :=
      { taskId := some taskId, status := .queued, progress := 0
        detail := "导出队列中", error := none }
     pollSerial := e.pollSerial + 1 },
   (taskId, e.pollSerial + 1))

/-- The failure continuation of `startExport`. -/
def startExportFail (error : JSValue) (e : EngineState) : EngineState :=
  let parsed := normalizeInvokeError error "START_EXPORT_FAIL" "导出任务创建失败"
  { e with store :=
      { taskId := none, status := .failed, progress := 100
        detail := "导出任务创建失败", error := some parsed.message } }

/-- The synchronous prefix of `retryExport`: reads the current task id; a
retry command (keyed by that id) is issued exactly when it is non-null,
and the state is untouched at this point. -/
def retryExportIssue (e : EngineState) : Option String × EngineState :=
  (e.store.taskId, e)

/-- The success continuation of `retryExport`: the returned new identity
replaces the old one wholesale and a fresh poll loop is started for it. -/
def retryExportOk (newTaskId : String) (e : EngineState) :
    EngineState × (String × Nat) :=
  ({ store :=
      { taskId := some newTaskId, status := .queued, progress := 0
        detail := "已创建重试任务", error := none }
     pollSerial := e.pollSerial + 1 },
   (newTaskId, e.pollSerial + 1))

/-- The failure continuation of `retryExport`: `taskId` is the id captured
at call time and is written back verbatim. -/
def retryExportFail (capturedTaskId : String) (error : JSValue)
    (e : EngineState) : EngineState :=
  let parsed := normalizeInvokeError error "RETRY_EXPORT_FAIL" "创建重试导出任务失败"
  { e with store :=
      { taskId := some capturedTaskId, status := .failed, progress := 100
        detail := "创建重试导出任务失败", error := some parsed.message } }

/-- A status update delivered to the export store: a push notification
(`export/progress` event routed to `setProgress`) or a poll-loop tick. -/
inductive UpdateEvent where
  | push (taskId : String) (status : ExportStatus) (progress : Int) (detail : String)
  | poll (loopTaskId : String) (loopSerial : Nat) (snapshot : ExportTaskStatusSnapshot)
deriving Repr

/-- Apply one status update to the engine. -/
def updStep (e : EngineState) : UpdateEvent → EngineState
  | .push taskId status progress detail =>
    { e with store := setProgress taskId status progress detail e.store }
  | .poll loopTaskId loopSerial snapshot =>
    pollTickStep loopTaskId loopSerial snapshot e

/-- Run a sequence of status updates. -/
def runUpdates (events : List UpdateEvent) (e : EngineState) : EngineState :=
  events.foldl updStep e

/-- Every resumption event of the reconciliation engine's asynchronous
control flow: command continuations, poll ticks, push notifications. -/
inductive EngineEvent where
  | startOk (taskId : String)
  | startFail (error : JSValue)
  | retryOk (newTaskId : String)
  | retryFail (capturedTaskId : String) (error : JSValue)
  | push (taskId : String) (status : ExportStatus) (progress : Int) (detail : String)
  | poll (loopTaskId : String) (loopSerial : Nat) (snapshot : ExportTaskStatusSnapshot)
deriving Repr

/-- One engine step. -/
def engineStep (e : EngineState) : EngineEvent → EngineState
  | .startOk taskId => (startExportOk taskId e).1
  | .startFail err => startExportFail err e
  | .retryOk newTaskId => (retryExportOk newTaskId e).1
  | .retryFail captured err => retryExportFail captured err e
  | .push taskId status progress detail =>
    { e with store := setProgress taskId status progress detail e.store }
  | .poll loopTaskId loopSerial snapshot =>
    pollTickStep loopTaskId loopSerial snapshot e

/-- Run the engine from its initial state over an interleaving. -/
def runEngine (events : List EngineEvent) : EngineState :=
  events.foldl engineStep engineInit

/-! ## Recording store (the `useRecordingStore` module) -/

/-- `RecordingRuntimeStatus` from src/types/project.ts. -/
inductive RecordingRuntimeStatus where
  | idle
  | recording
  | paused
  | stopped
  | error
deriving DecidableEq, Repr

/-- `CaptureMode` from src/types/project.ts. -/
inductive CaptureMode where
  | fullscreen
  | window
deriving DecidableEq, Repr

/-- `Resolution` from src/types/project.ts. -/
inductive Resolution where
  | p1080
  | p720
deriving DecidableEq, Repr

/-- `HotkeySettings` from src/types/project.ts. -/
structure HotkeySettings where
  startStop : String
  pauseResume : String
deriving DecidableEq, Repr

/-- `RecordingProfile` from src/types/project.ts. -/
structure RecordingProfile where
  captureMode : CaptureMode
  windowTarget : Option String
  frameRate : Nat
  resolution : Resolution
  microphoneDeviceId : Option String
  systemAudioEnabled : Bool
  hotkeys : HotkeySettings
deriving DecidableEq, Repr

/-- `RecordingStatusEvent` from src/types/project.ts: the payload of the
`recording/status` push stream. -/
structure RecordingStatusEvent where
  sessionId : String
  status : RecordingRuntimeStatus
  durationMs : Nat
  sourceLabel : String
  detail : String
  degradeMessage : Option String
deriving DecidableEq, Repr

/-- The observable slice of the recording store state. -/
structure RecordingState where
  sessionId : Option String
  projectId : Option String
  status : RecordingRuntimeStatus
  durationMs : Nat
  sourceLabel : String
  detail : String
  degradeMessage : Option String
  error : Option AppError
deriving DecidableEq, Repr

/-- The recording store's initial state. -/
def recordingInit : RecordingState :=
  { sessionId := none, projectId := none, status := .idle, durationMs := 0
    sourceLabel := "未开始", detail := "等待开始录制"
    degradeMessage := none, error := none }

/-- `syncFromEvent` from the recording store: overwrites status, duration,
source label, detail and degrade message from the notification; clears the
session id on stopped / error, otherwise adopts the notification's id. -/
def syncFromEvent (payload : RecordingStatusEvent) (s : RecordingState) :
    RecordingState :=
  { s with
    status := payload.status
    durationMs := payload.durationMs
    sourceLabel := payload.sourceLabel
    detail := payload.detail
    degradeMessage := payload.degradeMessage
    sessionId :=
      if payload.status = .stopped ∨ payload.status = .error then none
      else some payload.sessionId }

/-- The outcome of an awaited backend command: a reply value or a thrown
error value. -/
inductive CmdOutcome (α : Type) where
  | ok (value : α)
  | fail (error : JSValue)

/-- `startRecording` from the recording store, given the command outcome.
The second component is the profile the `start_recording` command was
issued with (the command is always sent). -/
def startRecording (profile : RecordingProfile)
    (outcome : CmdOutcome String) (s : RecordingState) :
    RecordingState × Option RecordingProfile :=
  match outcome with
  | .ok sessionId =>
    ({ s with
        sessionId := some sessionId
        projectId := none
        status := .recording
        durationMs := 0
        sourceLabel := if profile.captureMode = .fullscreen then "全屏" else "窗口"
        detail := "录制已开始"
        degradeMessage := none
        error := none }, some profile)
  | .fail err =>
    let parsed := normalizeInvokeError err "START_RECORDING_FAIL"
      "开始录制失败，请检查录制权限和音频设置"
    ({ s with
        sessionId := none
        status := .error
        detail := "开始录制失败"
        error := some parsed }, some profile)

/-- `pauseRecording` from the recording store.  The second component is the
session id the `pause_recording` command was issued with, `none` when no
command was sent. -/
def pauseRecording (outcome : CmdOutcome Unit) (s : RecordingState) :
    RecordingState × Option String :=
  match s.sessionId with
  | none =>
    ({ s with
        status := .error
        detail := "当前没有可暂停的录制会话，请重新开始录制"
        error := some ⟨"SESSION_NOT_FOUND", "暂停失败：未找到进行中的录制会话", none⟩ },
     none)
  | some sessionId =>
    match outcome with
    | .ok _ =>
      ({ s with status := .paused, detail := "录制已暂停", error := none },
       some sessionId)
    | .fail err =>
      let parsed := normalizeInvokeError err "PAUSE_RECORDING_FAIL" "暂停录制失败"
      ({ s with
          status := .error, detail := "暂停失败", sessionId := none
          error := some parsed }, some sessionId)

/-- `resumeRecording` from the recording store. -/
def resumeRecording (outcome : CmdOutcome Unit) (s : RecordingState) :
    RecordingState × Option String :=
  match s.sessionId with
  | none =>
    ({ s with
        status := .error
        detail := "当前没有可继续的录制会话，请重新开始录制"
        error := some ⟨"SESSION_NOT_FOUND", "继续失败：未找到已暂停的录制会话", none⟩ },
     none)
  | some sessionId =>
    match outcome with
    | .ok _ =>
      ({ s with status := .recording, detail := "录制已继续", error := none },
       some sessionId)
    | .fail err =>
      let parsed := normalizeInvokeError err "RESUME_RECORDING_FAIL" "继续录制失败"
      ({ s with
          status := .error, detail := "继续失败", sessionId := none
          error := some parsed }, some sessionId)

/-- `stopRecording` from the recording store; the `ok` outcome carries the
`stop_recording` reply (the materialized project id).  The intermediate
pre-await `set` only touches `detail` and `error`, both overwritten again
by either continuation, so the composition is written directly. -/
def stopRecording (outcome : CmdOutcome String) (s : RecordingState) :
    RecordingState × Option String :=
  match s.sessionId with
  | none =>
    ({ s with
        status := .error
        detail := "当前没有可停止的录制会话，请重新开始录制"
        error := some ⟨"SESSION_NOT_FOUND", "停止失败：未找到进行中的录制会话", none⟩ },
     none)
  | some sessionId =>
    match outcome with
    | .ok projectId =>
      ({ s with
          status := .stopped, projectId := some projectId
          sessionId := none, detail := "录制已完成", error := none },
       some sessionId)
    | .fail err =>
      let parsed := normalizeInvokeError err "STOP_RECORDING_FAIL" "停止录制失败"
      ({ s with
          status := .error, sessionId := none, detail := "停止失败"
          error := some parsed }, some sessionId)

/-! ## Project store (the `useProjectStore` module, src/types/project.ts) -/

/-- `AspectRatio` from src/types/project.ts. -/
inductive AspectRatio where
  | r16x9
  | r9x16
  | r1x1
deriving DecidableEq, Repr

/-- `CameraIntensity` from src/types/project.ts. -/
inductive CameraIntensity where
  | low
  | medium
  | high
deriving DecidableEq, Repr

/-- `CameraMotionProfile` from src/types/project.ts.  `smoothing` and
`maxZoom` are numeric payloads the store never computes with; they are
carried as integers. -/
structure CameraMotionProfile where
  enabled : Bool
  intensity : CameraIntensity
  smoothing : Int
  maxZoom : Int
  idleThresholdMs : Nat
deriving DecidableEq, Repr

/-- `ExportProfile` from src/types/project.ts (`format` / codec fields are
fixed string literals in the source). -/
structure ExportProfile where
  format : String
  resolution : Resolution
  bitrateMbps : Nat
  fps : Nat
  videoCodec : String
  audioCodec : String
deriving DecidableEq, Repr

/-- `TimelineConfig` from src/types/project.ts. -/
structure TimelineConfig where
  trimStartMs : Nat
  trimEndMs : Nat
  aspectRatio : AspectRatio
  cursorHighlightEnabled : Bool
deriving DecidableEq, Repr

/-- `ProjectStatus` from src/types/project.ts. -/
inductive ProjectStatus where
  | recording
  | ready_to_edit
  | exporting
  | export_failed
  | export_succeeded
deriving DecidableEq, Repr

/-- The `artifacts` sub-object of `ProjectManifest`. -/
structure ProjectArtifacts where
  rawRecordingPath : Option String
  cursorTrackPath : Option String
  lastExportPath : Option String
  exportLogPath : Option String
deriving DecidableEq, Repr

/-- The `quality` sub-object of `ProjectManifest` (numeric metric payloads
carried as integers; the store never computes with them). -/
structure QualityMetrics where
  avOffsetMs : Int
  avgDropRate : Int
  peakDropRate : Int
deriving DecidableEq, Repr

/-- `ProjectManifest` from src/types/project.ts.  The source field `export`
is spelled `exportProfile` here because `export` is a Lean keyword. -/
structure ProjectManifest where
  schemaVersion : Nat
  appVersion : String
  title : Option String
  createdAt : String
  updatedAt : String
  recording : RecordingProfile
  cameraMotion : CameraMotionProfile
  exportProfile : ExportProfile
  timeline : TimelineConfig
  artifacts : ProjectArtifacts
  quality : QualityMetrics
  status : ProjectStatus
  lastError : Option AppError
deriving DecidableEq, Repr

/-- The observable slice of the project store plus the module-level
`projectLoadSerial` counter. -/
structure ProjectStoreState where
  currentProjectId : Option String
  manifest : Option ProjectManifest
  loadSerial : Nat
deriving DecidableEq, Repr

/-- The project store's initial state. -/
def projectInit : ProjectStoreState :=
  { currentProjectId := none, manifest := none, loadSerial := 0 }

/-- The synchronous prefix of `loadProject`: takes a fresh load serial,
adopts the project id and clears the cached manifest, then issues the
fetch.  Returns the new state and the serial captured by the fetch. -/
def loadProjectIssue (projectId : String) (s : ProjectStoreState) :
    ProjectStoreState × Nat :=
  let loadSerial := s.loadSerial + 1
  ({ currentProjectId := some projectId, manifest := none
     loadSerial := loadSerial }, loadSerial)

/-- The continuation of `loadProject` after its fetch resolves: the reply
is discarded when the captured serial is no longer the latest issued or
the current project id changed while the fetch was outstanding; otherwise
the manifest is installed. -/
def loadProjectResolve (projectId : String) (capturedSerial : Nat)
    (manifest : ProjectManifest) (s : ProjectStoreState) : ProjectStoreState :=
  if capturedSerial ≠ s.loadSerial ∨ s.currentProjectId ≠ some projectId then s
  else { s with currentProjectId := some projectId, manifest := some manifest }

/-- A partial `TimelineConfig` patch (`Partial<TimelineConfig>`). -/
structure TimelinePatch where
  trimStartMs : Option Nat
  trimEndMs : Option Nat
  aspectRatio : Option AspectRatio
  cursorHighlightEnabled : Option Bool
deriving DecidableEq, Repr

/-- Shallow field overwrite `{ ...latest.timeline, ...patch }`. -/
def applyTimelinePatch (patch : TimelinePatch) (t : TimelineConfig) :
    TimelineConfig :=
  { trimStartMs := patch.trimStartMs.getD t.trimStartMs
    trimEndMs := patch.trimEndMs.getD t.trimEndMs
    aspectRatio := patch.aspectRatio.getD t.aspectRatio
    cursorHighlightEnabled :=
      patch.cursorHighlightEnabled.getD t.cursorHighlightEnabled }

/-- A partial `CameraMotionProfile` patch (`Partial<CameraMotionProfile>`). -/
structure CameraMotionPatch where
  enabled : Option Bool
  intensity : Option CameraIntensity
  smoothing : Option Int
  maxZoom : Option Int
  idleThresholdMs : Option Nat
deriving DecidableEq, Repr

/-- Shallow field overwrite `{ ...latest.cameraMotion, ...patch }`. -/
def applyCameraMotionPatch (patch : CameraMotionPatch)
    (c : CameraMotionProfile) : CameraMotionProfile :=
  { enabled := patch.enabled.getD c.enabled
    intensity := patch.intensity.getD c.intensity
    smoothing := patch.smoothing.getD c.smoothing
    maxZoom := patch.maxZoom.getD c.maxZoom
    idleThresholdMs := patch.idleThresholdMs.getD c.idleThresholdMs }

/-- The synchronous prefix of `updateTimeline` / `updateCameraMotion`:
with no current project id the call returns without enqueuing anything;
otherwise the queued operation captures the current id as its target. -/
def patchEnqueue (s : ProjectStoreState) : Option String :=
  s.currentProjectId

/-- The continuation of a queued `update_timeline` write after its command
resolves: the local merge is skipped when the current project id no longer
equals the captured target (or no manifest is cached); otherwise the patch
is merged into the cached timeline by shallow field overwrite. -/
def runTimelineWrite (targetProjectId : String) (patch : TimelinePatch)
    (s : ProjectStoreState) : ProjectStoreState :=
  if s.currentProjectId ≠ some targetProjectId then s
  else
    match s.manifest with
    | none => s
    | some latest =>
      let merged := { latest with timeline := applyTimelinePatch patch latest.timeline }
      { s with manifest := some merged }

/-- The continuation of a queued `update_camera_motion` write. -/
def runCameraMotionWrite (targetProjectId : String) (patch : CameraMotionPatch)
    (s : ProjectStoreState) : ProjectStoreState :=
  if s.currentProjectId ≠ some targetProjectId then s
  else
    match s.manifest with
    | none => s
    | some latest =>
      let merged :=
        { latest with cameraMotion := applyCameraMotionPatch patch latest.cameraMotion }
      { s with manifest := some merged }

/-! ## The shared write queue's promise-chain semantics

`projectWriteQueue` is a module-level promise; every update call replaces
it with `projectWriteQueue.catch(() => undefined).then(task)` and then
awaits the new tail, and `flushUpdates` awaits the current tail. -/

/-- The settled outcome of a JavaScript promise (the write tasks resolve
with `undefined`, so fulfilment carries no value). -/
inductive POutcome where
  | fulfilled
  | rejected (error : JSValue)
deriving Repr

/-- `p.catch(() => undefined)`: rejection is recovered to fulfilment. -/
def pcatch : POutcome → POutcome
  | .fulfilled => .fulfilled
  | .rejected _ => .fulfilled

/-- `p.then(task)`: the task body runs only when `p` is fulfilled, and the
resulting promise settles with the task's outcome; on a rejected `p` the
task is skipped and the rejection propagates.  The boolean records whether
the task ran. -/
def pthen (p : POutcome) (taskResult : POutcome) : POutcome × Bool :=
  match p with
  | .fulfilled => (taskResult, true)
  | .rejected e => (.rejected e, false)

/-- One update call's effect on the queue tail:
`projectWriteQueue.catch(() => undefined).then(task)`. -/
def enqueueWrite (tail : POutcome) (taskResult : POutcome) : POutcome × Bool :=
  pthen (pcatch tail) taskResult

/-- `flushUpdates`: `await projectWriteQueue` settles with the tail's
outcome. -/
def flushUpdates (tail : POutcome) : POutcome := tail

/-! ## Sample data used by witnesses -/

/-- A concrete recording profile. -/
def sampleProfile : RecordingProfile :=
  { captureMode := .fullscreen, windowTarget := none, frameRate := 60
    resolution := .p1080, microphoneDeviceId := none
    systemAudioEnabled := true
    hotkeys := { startStop := "Ctrl+Shift+R", pauseResume := "Ctrl+Shift+P" } }

/-- A concrete project manifest. -/
def sampleManifest : ProjectManifest :=
  { schemaVersion := 1, appVersion := "0.1.0", title := some "Demo"
    createdAt := "2026-02-01T10:00:00Z", updatedAt := "2026-02-07T10:00:00Z"
    recording := sampleProfile
    cameraMotion :=
      { enabled := true, intensity := .medium, smoothing := 1, maxZoom := 2
        idleThresholdMs := 800 }
    exportProfile :=
      { format := "mp4", resolution := .p1080, bitrateMbps := 12, fps := 60
        videoCodec := "h264", audioCodec := "aac" }
    timeline :=
      { trimStartMs := 0, trimEndMs := 60000, aspectRatio := .r16x9
        cursorHighlightEnabled := true }
    artifacts :=
      { rawRecordingPath := some "assets/recording_raw.mp4"
        cursorTrackPath := none, lastExportPath := none, exportLogPath := none }
    quality := { avOffsetMs := 0, avgDropRate := 0, peakDropRate := 0 }
    status := .ready_to_edit
    lastError := none }

/-- A second concrete manifest, distinguishable from `sampleManifest`. -/
def sampleManifestB : ProjectManifest :=
  { sampleManifest with title := some "Other" }

/-- A concrete project store state caching `sampleManifest` for "p1". -/
def sampleProjectState : ProjectStoreState :=
  { currentProjectId := some "p1", manifest := some sampleManifest
    loadSerial := 3 }

/-- A concrete timeline patch touching only `trimStartMs`. -/
def sampleTimelinePatch : TimelinePatch :=
  { trimStartMs := some 120, trimEndMs := none, aspectRatio := none
    cursorHighlightEnabled := none }

/-- A concrete camera-motion patch touching only `enabled`. -/
def sampleCameraPatch : CameraMotionPatch :=
  { enabled := some false, intensity := none, smoothing := none
    maxZoom := none, idleThresholdMs := none }

/-! ## Claim C3: load freshness (last-issued-wins) -/

/-- Claim C3: if `loadProject(A)` is issued and then `loadProject(B)` is
issued before either fetch resolves, and A's fetch resolves after B's,
then the cached manifest ends as B's manifest and A's late response is a
discarded no-op; moreover any load response is installed only when its
captured serial is still the latest issued and the current project id
still equals the one it was issued for. -/
theorem load_freshness (s0 s1 s2 : ProjectStoreState) (serA serB : Nat)
    (pidA pidB : String) (mA mB : ProjectManifest)
    (h1 : loadProjectIssue pidA s0 = (s1, serA))
    (h2 : loadProjectIssue pidB s1 = (s2, serB)) :
    loadProjectResolve pidA serA mA (loadProjectResolve pidB serB mB s2) =
      loadProjectResolve pidB serB mB s2 ∧
    (loadProjectResolve pidB serB mB s2).manifest = some mB ∧
    (loadProjectResolve pidB serB mB s2).currentProjectId = some pidB ∧
    (∀ (pid : String) (ser : Nat) (m : ProjectManifest) (s : ProjectStoreState),
      loadProjectResolve pid ser m s ≠ s →
      ser = s.loadSerial ∧ s.currentProjectId = some pid ∧
      loadProjectResolve pid ser m s =
        { s with currentProjectId := some pid, manifest := some m }) := by
  have hA : serA = s0.loadSerial + 1 ∧ s1 =
      { currentProjectId := some pidA, manifest := none
        loadSerial := s0.loadSerial + 1 } := by
    simp [loadProjectIssue] at h1
    exact ⟨h1.2.symm, h1.1.symm⟩
  have hB : serB = s1.loadSerial + 1 ∧ s2 =
      { currentProjectId := some pidB, manifest := none
        loadSerial := s1.loadSerial + 1 } := by
    simp [loadProjectIssue] at h2
    exact ⟨h2.2.symm, h2.1.symm⟩
  obtain ⟨haSer, haState⟩ := hA
  obtain ⟨hbSer, hbState⟩ := hB
  subst haState hbState
  simp only [loadProjectResolve] at *
  refine ⟨?_, ?_, ?_, ?_⟩
  · simp [haSer, hbSer]
  · simp [hbSer]
  · simp [hbSer]
  · intro pid ser m s hne
    by_cases hcond : ser ≠ s.loadSerial ∨ s.currentProjectId ≠ some pid
    · simp [loadProjectResolve, hcond] at hne
    · push_neg at hcond
      refine ⟨hcond.1, hcond.2, ?_⟩
      simp [loadProjectResolve, hcond.1, hcond.2]

/-- Witness for C3 at concrete inputs: after `load("A")` then `load("B")`,
B's reply installs `sampleManifestB` and A's late reply changes nothing. -/
theorem load_freshness_witness :
    (loadProjectResolve "A" 1 sampleManifest
      (loadProjectResolve "B" 2 sampleManifestB
        (loadProjectIssue "B" (loadProjectIssue "A" projectInit).1).1)).manifest =
      some sampleManifestB := by
  have h := load_freshness projectInit (loadProjectIssue "A" projectInit).1
    (loadProjectIssue "B" (loadProjectIssue "A" projectInit).1).1 1 2 "A" "B"
    sampleManifest sampleManifestB (by rfl) (by rfl)
  rw [h.1]
  exact h.2.1

/-! ## Claim C4: session precondition guard -/

/-- Claim C4: calling `pauseRecording`, `resumeRecording` or
`stopRecording` while `sessionId` is null never issues a backend command
(the issued-command component is `none`), always sets the status to
`error`, and records an error whose code is `SESSION_NOT_FOUND`. -/
theorem session_precondition_guard (s : RecordingState)
    (h : s.sessionId = none) (outPause outResume : CmdOutcome Unit)
    (outStop : CmdOutcome String) :
    (pauseRecording outPause s).2 = none ∧
    (pauseRecording outPause s).1.status = .error ∧
    ((pauseRecording outPause s).1.error.map AppError.code) =
      some "SESSION_NOT_FOUND" ∧
    (resumeRecording outResume s).2 = none ∧
    (resumeRecording outResume s).1.status = .error ∧
    ((resumeRecording outResume s).1.error.map AppError.code) =
      some "SESSION_NOT_FOUND" ∧
    (stopRecording outStop s).2 = none ∧
    (stopRecording outStop s).1.status = .error ∧
    ((stopRecording outStop s).1.error.map AppError.code) =
      some "SESSION_NOT_FOUND" := by
  simp [pauseRecording, resumeRecording, stopRecording, h]

/-- Witness for C4: the guard fires on the initial recording state. -/
theorem session_precondition_guard_witness :
    (pauseRecording (.ok ()) recordingInit).2 = none ∧
    (pauseRecording (.ok ()) recordingInit).1.status = .error ∧
    ((pauseRecording (.ok ()) recordingInit).1.error.map AppError.code) =
      some "SESSION_NOT_FOUND" := by
  have h := session_precondition_guard recordingInit (by rfl)
    (.ok ()) (.ok ()) (.ok "p1")
  exact ⟨h.1, h.2.1, h.2.2.1⟩

/-! ## Claim C5: mutation-queue failure policy -/

/-- Counterexample for C5: with a failed write as the current queue tail,
`flushUpdates` settles rejected with that write's error, so the failure
does propagate to a caller awaiting `flushUpdates()` rather than being
swallowed at the queue level. -/
theorem mutation_queue_flush_rejects :
    flushUpdates (enqueueWrite .fulfilled (.rejected (.jstr "write failed"))).1 =
      .rejected (.jstr "write failed") := rfl

/-- Claim C5 as amended: a failed queued write never prevents the next
enqueued write from running (each enqueue recovers the previous tail's
rejection before chaining its task), but the failure is not swallowed at
the queue level: while the failed write is the queue tail,
`flushUpdates` rejects with that error; only the next enqueued write's
recovery step swallows it. -/
theorem mutation_queue_failure_policy (tail : POutcome) (e : JSValue)
    (r : POutcome) :
    (enqueueWrite tail r).2 = true ∧
    (enqueueWrite (enqueueWrite tail (.rejected e)).1 r).2 = true ∧
    flushUpdates (enqueueWrite tail (.rejected e)).1 = .rejected e ∧
    flushUpdates (enqueueWrite (enqueueWrite tail (.rejected e)).1 .fulfilled).1 =
      .fulfilled := by
  cases tail <;> simp [enqueueWrite, pcatch, pthen, flushUpdates]

/-! ## Claim C8: patch frame effect -/

/-- Abbreviation for the manifest produced by a local timeline merge:
`{ ...latest, timeline: { ...latest.timeline, ...patch } }`. -/
def timelineMerged (patch : TimelinePatch) (m : ProjectManifest) :
    ProjectManifest :=
  { m with timeline := applyTimelinePatch patch m.timeline }

/-- Abbreviation for the manifest produced by a local camera-motion merge:
`{ ...latest, cameraMotion: { ...latest.cameraMotion, ...patch } }`. -/
def cameraMotionMerged (patch : CameraMotionPatch) (m : ProjectManifest) :
    ProjectManifest :=
  { m with cameraMotion := applyCameraMotionPatch patch m.cameraMotion }

/-- Claim C8: each queued patch operation, when it runs, merges its partial
fields by shallow field overwrite into exactly its one target sub-object
(timeline for `updateTimeline`, cameraMotion for `updateCameraMotion`),
leaving every other manifest field unchanged; if the current project id no
longer equals the target captured at enqueue time the local merge is
skipped entirely; patch calls with no current project id enqueue nothing. -/
theorem patch_frame_effect (s : ProjectStoreState) (target : String)
    (m : ProjectManifest) (tp : TimelinePatch) (cp : CameraMotionPatch) :
    (s.currentProjectId = none → patchEnqueue s = none) ∧
    (s.currentProjectId ≠ some target →
      runTimelineWrite target tp s = s ∧
      runCameraMotionWrite target cp s = s) ∧
    (s.currentProjectId = some target → s.manifest = some m →
      runTimelineWrite target tp s =
        { s with manifest := some (timelineMerged tp m) } ∧
      runCameraMotionWrite target cp s =
        { s with manifest := some (cameraMotionMerged cp m) }) ∧
    (timelineMerged tp m).timeline = applyTimelinePatch tp m.timeline ∧
    (timelineMerged tp m).cameraMotion = m.cameraMotion ∧
    (timelineMerged tp m).exportProfile = m.exportProfile ∧
    (timelineMerged tp m).recording = m.recording ∧
    (timelineMerged tp m).status = m.status ∧
    (timelineMerged tp m).artifacts = m.artifacts ∧
    (timelineMerged tp m).quality = m.quality ∧
    (timelineMerged tp m).title = m.title ∧
    (timelineMerged tp m).lastError = m.lastError ∧
    (cameraMotionMerged cp m).cameraMotion =
      applyCameraMotionPatch cp m.cameraMotion ∧
    (cameraMotionMerged cp m).timeline = m.timeline ∧
    (cameraMotionMerged cp m).exportProfile = m.exportProfile ∧
    (cameraMotionMerged cp m).status = m.status ∧
    (tp.trimEndMs = none →
      (applyTimelinePatch tp m.timeline).trimEndMs = m.timeline.trimEndMs) ∧
    (tp.aspectRatio = none →
      (applyTimelinePatch tp m.timeline).aspectRatio = m.timeline.aspectRatio) ∧
    (cp.smoothing = none →
      (applyCameraMotionPatch cp m.cameraMotion).smoothing =
        m.cameraMotion.smoothing) ∧
    (∀ v, tp.trimStartMs = some v →
      (applyTimelinePatch tp m.timeline).trimStartMs = v) := by
  refine ⟨?_, ?_, ?_, rfl, rfl, rfl, rfl, rfl, rfl, rfl, rfl, rfl, rfl, rfl,
    rfl, rfl, ?_, ?_, ?_, ?_⟩
  · intro h; simp [patchEnqueue, h]
  · intro h
    constructor <;> simp [runTimelineWrite, runCameraMotionWrite, h]
  · intro hc hm
    constructor <;>
      simp [runTimelineWrite, runCameraMotionWrite, hc, hm, timelineMerged,
        cameraMotionMerged]
  · intro h; simp [applyTimelinePatch, h]
  · intro h; simp [applyTimelinePatch, h]
  · intro h; simp [applyCameraMotionPatch, h]
  · intro v h; simp [applyTimelinePatch, h]

/-- Witness for C8: the sample timeline patch merges into the sample
manifest's timeline without touching the camera-motion profile, and a
merge targeted at a superseded project id is skipped. -/
theorem patch_frame_effect_witness :
    (runTimelineWrite "p1" sampleTimelinePatch sampleProjectState).manifest =
      some (timelineMerged sampleTimelinePatch sampleManifest) ∧
    runTimelineWrite "p2" sampleTimelinePatch sampleProjectState =
      sampleProjectState := by
  have h := patch_frame_effect sampleProjectState "p1" sampleManifest
    sampleTimelinePatch sampleCameraPatch
  have h2 := patch_frame_effect sampleProjectState "p2" sampleManifest
    sampleTimelinePatch sampleCameraPatch
  refine ⟨?_, ?_⟩
  · rw [(h.2.2.1 (by rfl) (by rfl)).1]
  · exact (h2.2.1 (by simp [sampleProjectState])).1

/-! ## Claim C10: retry failure keeps the old identity -/

/-- Claim C10: when the retry command fails, the export store keeps the
old task identity (the id captured at call time, which is the pre-call
store value), sets status to failed and progress to 100, and surfaces the
normalized error message; a subsequent `retryExport` call therefore still
issues a command keyed by the same old identity instead of no-opping. -/
theorem retry_failure_keeps_identity (e : EngineState) (oldId : String)
    (h : e.store.taskId = some oldId) (err : JSValue) :
    retryExportIssue e = (some oldId, e) ∧
    (retryExportFail oldId err e).store.taskId = some oldId ∧
    (retryExportFail oldId err e).store.status = .failed ∧
    (retryExportFail oldId err e).store.progress = 100 ∧
    (retryExportFail oldId err e).store.detail = "创建重试导出任务失败" ∧
    (retryExportFail oldId err e).store.error =
      some (normalizeInvokeError err "RETRY_EXPORT_FAIL" "创建重试导出任务失败").message ∧
    retryExportIssue (retryExportFail oldId err e) =
      (some oldId, retryExportFail oldId err e) := by
  simp [retryExportIssue, retryExportFail, h]

/-- Witness for C10 on a store currently tracking "t1". -/
theorem retry_failure_keeps_identity_witness :
    (retryExportFail "t1" .jnull
      { store := { exportInit with taskId := some "t1" }
        pollSerial := 1 }).store.taskId = some "t1" := by
  have h := retry_failure_keeps_identity
    { store := { exportInit with taskId := some "t1" }, pollSerial := 1 }
    "t1" (by rfl) .jnull
  exact h.2.1

/-! ## Helper lemmas for the reconciliation engine -/

/-- A concrete engine state currently tracking task "t1" at progress 80. -/
def sampleEngine : EngineState :=
  { store :=
      { taskId := some "t1", status := .running, progress := 80
        detail := "导出处理中", error := none }
    pollSerial := 1 }

/-- A concrete running-status snapshot for task "t1". -/
def sampleSnapshot : ExportTaskStatusSnapshot :=
  { taskId := "t1", projectId := "p1", status := .running, retries := 0
    lastError := none }

/-- A status update never changes a non-null current task identity:
`setProgress` keeps `currentTaskId` and a poll tick's `set` does not touch
`taskId` at all. -/
theorem updStep_preserves_taskId (e : EngineState) (t : String)
    (h : e.store.taskId = some t) (u : UpdateEvent) :
    (updStep e u).store.taskId = some t := by
  cases u with
  | push taskId status progress detail =>
    by_cases hq : taskId = t
    · simp [updStep, setProgress, h, hq]
    · simp [updStep, setProgress, h, hq]
  | poll loopTaskId loopSerial snapshot =>
    by_cases hc : e.store.taskId = some loopTaskId ∧ loopSerial = e.pollSerial
    · simp only [updStep, pollTickStep, if_pos hc]
      exact h
    · simp only [updStep, pollTickStep, if_neg hc]
      exact h

/-- A non-null current task identity survives any interleaving of status
updates. -/
theorem runUpdates_preserves_taskId (us : List UpdateEvent) (e : EngineState)
    (t : String) (h : e.store.taskId = some t) :
    (runUpdates us e).store.taskId = some t := by
  induction us generalizing e with
  | nil => simpa [runUpdates]
  | cons u rest ih =>
    simp only [runUpdates, List.foldl_cons] at *
    exact ih _ (updStep_preserves_taskId e t h u)

/-- The push-notification clamp never exceeds 100. -/
theorem clampProgress_le_100 (p : Int) : clampProgress p ≤ 100 :=
  Int.toNat_le.mpr (max_le (by norm_num) (min_le_left _ _))

/-- An admitted poll tick keeps the stored progress within 100. -/
theorem applyPollSnapshot_progress_le (snapshot : ExportTaskStatusSnapshot)
    (cur : ExportState) (h : cur.progress ≤ 100) :
    (applyPollSnapshot snapshot cur).progress ≤ 100 := by
  cases hstat : snapshot.status <;>
    simp [applyPollSnapshot, hstat, progressByStatus] <;> omega

/-- Every engine step keeps the stored progress within 100. -/
theorem engineStep_progress_le (e : EngineState) (ev : EngineEvent)
    (h : e.store.progress ≤ 100) :
    (engineStep e ev).store.progress ≤ 100 := by
  cases ev with
  | startOk t => simp [engineStep, startExportOk]
  | startFail v => simp [engineStep, startExportFail]
  | retryOk t => simp [engineStep, retryExportOk]
  | retryFail c v => simp [engineStep, retryExportFail]
  | push t status p d =>
    rcases hm : e.store.taskId with _ | cur
    · simp [engineStep, setProgress, hm, clampProgress_le_100]
    · by_cases hq : t = cur
      · simp [engineStep, setProgress, hm, hq, clampProgress_le_100]
      · simp [engineStep, setProgress, hm, hq, h]
  | poll loopTaskId loopSerial snapshot =>
    by_cases hc : e.store.taskId = some loopTaskId ∧ loopSerial = e.pollSerial
    · simp [engineStep, pollTickStep, hc,
        applyPollSnapshot_progress_le snapshot e.store h]
    · simp [engineStep, pollTickStep, hc, h]

/-- Progress stays within 100 along any run of the engine. -/
theorem foldl_engineStep_progress_le (es : List EngineEvent) (e : EngineState)
    (h : e.store.progress ≤ 100) :
    (es.foldl engineStep e).store.progress ≤ 100 := by
  induction es generalizing e with
  | nil => simpa
  | cons ev rest ih =>
    simp only [List.foldl_cons]
    exact ih _ (engineStep_progress_le e ev h)

/-! ## Claim C1: identity admission for export updates -/

/-- Counterexample to C1 as stated: on the initial store the engine has no
current task identity, so no update's `taskId` equals the current identity,
yet `setProgress` applies the push update (and adopts its identity) instead
of discarding it. -/
theorem identity_admission_counterexample :
    exportInit.taskId = none ∧
    setProgress "t1" .running 50 "导出处理中" exportInit ≠ exportInit ∧
    (setProgress "t1" .running 50 "导出处理中" exportInit).taskId = some "t1" := by
  refine ⟨rfl, by decide, rfl⟩

/-- Claim C1 as amended: whenever the engine has a current task identity
`c`, a push update is applied iff its task id equals `c` (a mismatching
update leaves the store untouched), and a poll tick is applied iff its loop
id equals `c` and its loop is still the latest poll generation; the
statement quantifies over all states, hence over all interleavings.  (When
no identity is adopted, push updates are instead applied and adopt their
id, as the counterexample shows.) -/
theorem identity_admission (s : ExportState) (c : String)
    (h : s.taskId = some c) (taskId : String) (status : ExportStatus)
    (progress : Int) (detail : String) (e : EngineState)
    (he : e.store.taskId = some c) (loopTaskId : String) (loopSerial : Nat)
    (snapshot : ExportTaskStatusSnapshot) :
    (taskId ≠ c → setProgress taskId status progress detail s = s) ∧
    (setProgress taskId status progress detail s ≠ s → taskId = c) ∧
    (taskId = c → setProgress taskId status progress detail s =
      { taskId := some c, status := status, progress := clampProgress progress
        detail := detail
        error := if status = .failed then some detail else none }) ∧
    (loopTaskId ≠ c → pollTickStep loopTaskId loopSerial snapshot e = e) ∧
    (pollTickStep loopTaskId loopSerial snapshot e ≠ e →
      loopTaskId = c ∧ loopSerial = e.pollSerial) ∧
    (loopTaskId = c → loopSerial = e.pollSerial →
      pollTickStep loopTaskId loopSerial snapshot e =
        { e with store := applyPollSnapshot snapshot e.store }) := by
  refine ⟨?_, ?_, ?_, ?_, ?_, ?_⟩
  · intro hne; simp [setProgress, h, hne]
  · intro hchanged
    by_contra hne
    exact hchanged (by simp [setProgress, h, hne])
  · intro heq; simp [setProgress, h, heq]
  · intro hne; simp [pollTickStep, he, Ne.symm hne]
  · intro hchanged
    by_cases hc : e.store.taskId = some loopTaskId ∧ loopSerial = e.pollSerial
    · rw [he] at hc
      exact ⟨(Option.some.inj hc.1).symm, hc.2⟩
    · exact absurd (by simp [pollTickStep, hc]) hchanged
  · intro h1 h2; simp [pollTickStep, he, h1, h2]

/-- Witness for C1: with "t1" current, a "t9" push and a "t9" poll tick
are discarded unchanged, while a "t1" push is applied. -/
theorem identity_admission_witness :
    setProgress "t9" .running 70 "其他任务" sampleEngine.store =
      sampleEngine.store ∧
    pollTickStep "t9" 1 sampleSnapshot sampleEngine = sampleEngine ∧
    setProgress "t1" .running 90 "推进" sampleEngine.store =
      { taskId := some "t1", status := .running, progress := clampProgress 90
        detail := "推进", error := none } := by
  have h9 := identity_admission sampleEngine.store "t1" rfl "t9" .running 70
    "其他任务" sampleEngine rfl "t9" 1 sampleSnapshot
  have h1 := identity_admission sampleEngine.store "t1" rfl "t1" .running 90
    "推进" sampleEngine rfl "t1" 1 sampleSnapshot
  refine ⟨h9.1 (by decide), h9.2.2.2.1 (by decide), ?_⟩
  simpa using h1.2.2.1 rfl

/-! ## Claim C2: monotonic progress -/

/-- A reachable interleaving for task "t1": adopt it, poll a running
snapshot (progress 45), receive a push with progress 80. -/
def monotonicTrace : List EngineEvent :=
  [ .startOk "t1",
    .poll "t1" 1
      { taskId := "t1", projectId := "p1", status := .running, retries := 0
        lastError := none },
    .push "t1" .running 80 "导出处理中" ]

/-- Counterexample to C2 as stated: within the single task identity "t1"
and with no terminal status ever applied, the applied progress sequence
reaches 80 and then a later push notification for the same task lowers the
stored progress to 10 — `setProgress` never floors by the current value. -/
theorem monotonic_progress_counterexample :
    (runEngine monotonicTrace).store.taskId = some "t1" ∧
    (runEngine monotonicTrace).store.progress = 80 ∧
    (runEngine monotonicTrace).store.status = .running ∧
    (runEngine (monotonicTrace ++ [.push "t1" .running 10 "回落"])).store.taskId
      = some "t1" ∧
    (runEngine (monotonicTrace ++ [.push "t1" .running 10 "回落"])).store.progress
      = 10 ∧
    (runEngine (monotonicTrace ++ [.push "t1" .running 10 "回落"])).store.status
      = .running ∧
    (10 : Nat) < 80 := by
  refine ⟨by decide, by decide, by decide, by decide, by decide, by decide,
    by decide⟩

/-- Claim C2 as amended: stored progress never exceeds 100 along any run;
a poll tick whose snapshot status is not `queued` never lowers the stored
progress (running floors at `max current 45`, fallback at `max current 62`,
terminal statuses write 100, an upper bound of the stored value); the
status-to-progress mapping is queued 0, running 45, fallback 62, terminal
100.  A `queued` snapshot or a push notification, by contrast, overwrites
progress with its own (clamped) value and may lower it. -/
theorem monotonic_progress (es : List EngineEvent) (e : EngineState)
    (loopTaskId : String) (loopSerial : Nat)
    (snapshot : ExportTaskStatusSnapshot)
    (h : e.store.progress ≤ 100) (hq : snapshot.status ≠ .queued) :
    (runEngine es).store.progress ≤ 100 ∧
    e.store.progress ≤
      (pollTickStep loopTaskId loopSerial snapshot e).store.progress ∧
    (snapshot.status = .running →
      (applyPollSnapshot snapshot e.store).progress = max e.store.progress 45) ∧
    (snapshot.status = .fallback →
      (applyPollSnapshot snapshot e.store).progress = max e.store.progress 62) ∧
    (snapshot.status.isTerminal = true →
      (applyPollSnapshot snapshot e.store).progress = 100) ∧
    progressByStatus .queued = 0 ∧ progressByStatus .running = 45 ∧
    progressByStatus .fallback = 62 ∧ progressByStatus .success = 100 ∧
    progressByStatus .failed = 100 := by
  have hmono : e.store.progress ≤ (applyPollSnapshot snapshot e.store).progress := by
    cases hstat : snapshot.status <;>
      simp [applyPollSnapshot, hstat, progressByStatus] <;> first
        | omega
        | exact absurd hstat hq
  refine ⟨foldl_engineStep_progress_le es engineInit (by decide), ?_, ?_, ?_, ?_,
    rfl, rfl, rfl, rfl, rfl⟩
  · by_cases hc : e.store.taskId = some loopTaskId ∧ loopSerial = e.pollSerial
    · simpa [pollTickStep, hc] using hmono
    · simp [pollTickStep, hc]
  · intro hstat; simp [applyPollSnapshot, hstat, progressByStatus]
  · intro hstat; simp [applyPollSnapshot, hstat, progressByStatus]
  · intro hterm
    cases hstat : snapshot.status <;>
      simp [hstat, ExportStatus.isTerminal] at hterm ⊢ <;>
      simp [applyPollSnapshot, hstat, progressByStatus]

/-- Witness for C2: an admitted running-status poll tick on progress 80
does not lower it. -/
theorem monotonic_progress_witness :
    sampleEngine.store.progress ≤
      (pollTickStep "t1" 1 sampleSnapshot sampleEngine).store.progress := by
  have h := monotonic_progress [] sampleEngine "t1" 1 sampleSnapshot
    (by decide) (by decide)
  exact h.2.1

/-! ## Claim C6: retry replaces, not resumes -/

/-- Claim C6: `retryExport` with no current task identity issues no
command and changes nothing; on command success the returned new identity
fully replaces the old one — progress 0, status queued — and a new poll
loop is started scoped to the new identity and the fresh generation; the
new identity persists across every subsequent interleaving of status
updates, and at any such point an update carrying the old identity (old
poll-loop tick or push notification) is ignored. -/
theorem retry_replaces_not_resumes (e eNoTask : EngineState)
    (oldId newId : String) (hold : e.store.taskId = some oldId)
    (hnew : newId ≠ oldId) (hnone : eNoTask.store.taskId = none)
    (us : List UpdateEvent) (status : ExportStatus) (p : Int) (d : String)
    (ser : Nat) (snapshot : ExportTaskStatusSnapshot) :
    retryExportIssue eNoTask = (none, eNoTask) ∧
    retryExportIssue e = (some oldId, e) ∧
    (retryExportOk newId e).1.store.taskId = some newId ∧
    (retryExportOk newId e).1.store.status = .queued ∧
    (retryExportOk newId e).1.store.progress = 0 ∧
    (retryExportOk newId e).2 = (newId, e.pollSerial + 1) ∧
    (retryExportOk newId e).1.pollSerial = e.pollSerial + 1 ∧
    (runUpdates us (retryExportOk newId e).1).store.taskId = some newId ∧
    updStep (runUpdates us (retryExportOk newId e).1) (.push oldId status p d) =
      runUpdates us (retryExportOk newId e).1 ∧
    updStep (runUpdates us (retryExportOk newId e).1) (.poll oldId ser snapshot) =
      runUpdates us (retryExportOk newId e).1 := by
  have hrun : (runUpdates us (retryExportOk newId e).1).store.taskId =
      some newId :=
    runUpdates_preserves_taskId us _ newId rfl
  refine ⟨by simp [retryExportIssue, hnone], by simp [retryExportIssue, hold],
    rfl, rfl, rfl, rfl, rfl, hrun, ?_, ?_⟩
  · simp [updStep, setProgress, hrun, Ne.symm hnew]
  · simp [updStep, pollTickStep, hrun, hnew]

/-- Witness for C6: retrying "t1" (progress 80) into "t2" resets progress
to 0 and a subsequent push for "t1" is ignored. -/
theorem retry_replaces_not_resumes_witness :
    (retryExportOk "t2" sampleEngine).1.store.progress = 0 ∧
    updStep (runUpdates [] (retryExportOk "t2" sampleEngine).1)
        (.push "t1" .running 90 "旧任务") =
      runUpdates [] (retryExportOk "t2" sampleEngine).1 := by
  have h := retry_replaces_not_resumes sampleEngine engineInit "t1" "t2"
    rfl (by decide) rfl [] .running 90 "旧任务" 0 sampleSnapshot
  exact ⟨h.2.2.2.2.1, h.2.2.2.2.2.2.2.2.1⟩

/-! ## Claim C7: no session resurrection -/

/-- Claim C7 is violated by the code: after a successful start adopting
session "s1" and a successful stop clearing it (sessionId null, status
stopped), a push notification carrying the previously cleared identity
"s1" makes `syncFromEvent` re-adopt it — the handler never checks the
notification's session identity against a known session. -/
theorem session_resurrection_unguarded :
    ((stopRecording (.ok "p1")
        (startRecording sampleProfile (.ok "s1") recordingInit).1).1.sessionId
      = none) ∧
    ((stopRecording (.ok "p1")
        (startRecording sampleProfile (.ok "s1") recordingInit).1).1.status
      = .stopped) ∧
    ((syncFromEvent
        { sessionId := "s1", status := .recording, durationMs := 5000
          sourceLabel := "全屏", detail := "录制中", degradeMessage := none }
        (stopRecording (.ok "p1")
          (startRecording sampleProfile (.ok "s1") recordingInit).1).1).sessionId
      = some "s1") ∧
    ((syncFromEvent
        { sessionId := "s1", status := .recording, durationMs := 5000
          sourceLabel := "全屏", detail := "录制中", degradeMessage := none }
        (stopRecording (.ok "p1")
          (startRecording sampleProfile (.ok "s1") recordingInit).1).1).status
      = .recording) := by
  refine ⟨by decide, by decide, by decide, by decide⟩

/-! ## Claim C9: error normalization totality and shape -/

/-- Counterexample to C9 as stated: the whitespace string " " is a
non-empty string, but `normalizeInvokeError` does not yield it as the
message — the source tests `error.trim().length > 0`, so a blank string
falls through to the caller-supplied fallback code and message. -/
theorem normalize_error_blank_counterexample :
    " " ≠ "" ∧
    normalizeInvokeError (.jstr " ") "FALLBACK" "回退消息" =
      ⟨"FALLBACK", "回退消息", none⟩ ∧
    (normalizeInvokeError (.jstr " ") "FALLBACK" "回退消息").message ≠ " " := by
  refine ⟨by decide, by decide, by decide⟩

/-- Claim C9 as amended: `normalizeInvokeError` is total by construction
and always returns a `{code, message, suggestion?}` record; a string that
is non-blank after trimming yields itself as message, an `Error` whose
message is non-blank yields that message, a record (or a record nested
under its `error` field, when the direct parse fails) with a non-blank
string `message` yields that message together with the record's `code`
when that is a string (else the fallback code), and every unrecognized
input — blank strings aside, numbers, booleans, null, undefined, records
without a usable message — yields exactly the caller-supplied fallback
code and fallback message. -/
theorem normalize_error_shape (s m c sug fc fm : String)
    (fields nested : List (String × JSValue)) (n : Int) (b : Bool)
    (hs : 0 < (jsTrim s).length) (hm : 0 < (jsTrim m).length) :
    normalizeInvokeError (.jstr s) fc fm = ⟨fc, s, none⟩ ∧
    normalizeInvokeError (.jerror m) fc fm = ⟨fc, m, none⟩ ∧
    (∀ parsed, parseFromRecord fields fc fm = some parsed →
      normalizeInvokeError (.jrec fields) fc fm = parsed) ∧
    (parseFromRecord fields fc fm = none →
      lookupField fields "error" = some (.jrec nested) →
      ∀ parsed, parseFromRecord nested fc fm = some parsed →
        normalizeInvokeError (.jrec fields) fc fm = parsed) ∧
    (lookupField fields "code" = some (.jstr c) →
      lookupField fields "message" = some (.jstr m) →
      lookupField fields "suggestion" = none →
      parseFromRecord fields fc fm = some ⟨c, m, none⟩) ∧
    (lookupField fields "code" = none →
      lookupField fields "message" = some (.jstr m) →
      lookupField fields "suggestion" = some (.jstr sug) →
      parseFromRecord fields fc fm = some ⟨fc, m, some sug⟩) ∧
    (parseFromRecord fields fc fm = none →
      lookupField fields "error" = none →
      normalizeInvokeError (.jrec fields) fc fm = ⟨fc, fm, none⟩) ∧
    normalizeInvokeError (.jnum n) fc fm = ⟨fc, fm, none⟩ ∧
    normalizeInvokeError (.jbool b) fc fm = ⟨fc, fm, none⟩ ∧
    normalizeInvokeError .jnull fc fm = ⟨fc, fm, none⟩ ∧
    normalizeInvokeError .jundefined fc fm = ⟨fc, fm, none⟩ := by
  refine ⟨?_, ?_, ?_, ?_, ?_, ?_, ?_, rfl, rfl, rfl, rfl⟩
  · simp only [normalizeInvokeError]
    rw [if_pos hs]
  · simp only [normalizeInvokeError]
    rw [if_pos hm]
  · intro parsed hp
    simp [normalizeInvokeError, normalizeFromRecord, asRecord, hp]
  · intro hnone herr parsed hp
    simp [normalizeInvokeError, normalizeFromRecord, asRecord, hnone, herr, hp]
  · intro h1 h2 h3
    simp [parseFromRecord, h1, h2, h3, hm]
  · intro h1 h2 h3
    simp [parseFromRecord, h1, h2, h3, hm]
  · intro h1 h2
    simp [normalizeInvokeError, normalizeFromRecord, asRecord, h1, h2]

/-- Witness for C9: a non-blank plain string passes through as the
message, and a `{code, message}` record yields its own code and message. -/
theorem normalize_error_shape_witness :
    normalizeInvokeError (.jstr "磁盘空间不足") "FC" "FM" =
      ⟨"FC", "磁盘空间不足", none⟩ ∧
    normalizeInvokeError
        (.jrec [("code", .jstr "E_SPACE"), ("message", .jstr "no space left")])
        "FC" "FM" =
      ⟨"E_SPACE", "no space left", none⟩ := by
  have h := normalize_error_shape "磁盘空间不足" "no space left" "E_SPACE" "提示"
    "FC" "FM" [("code", .jstr "E_SPACE"), ("message", .jstr "no space left")]
    [] 0 true (by decide) (by decide)
  exact ⟨h.1, h.2.2.1 _ (by decide)⟩

end FocusLens
